import Mathlib

/-
Verification of the task-orchestration core of AgentCodeV3.

This file gives a shallow embedding of the backend of the repository:
the task state model (backend/state.py), the dependency-aware step
scheduler (`AgentState.get_next_pending_step`), the developer execution
loop (backend/developer.py), the triage classifier (backend/triage.py),
the orchestration decisions of the workflow graph (backend/agent_graph.py)
and the snapshot serialization (`AgentState.to_dict`).

Conventions of the embedding:
- Every external, fallible capability (the language-model completion,
  the search and file-write tools) enters as an explicit oracle value
  (`LlmOutcome`, `LlmStepOutcome`, `ActionEnv`, `InquiryOutcome`): the code
  under verification is everything the Python functions do around those calls.
- Python exceptions are modelled with `Except`; the scheduler's possible
  `AttributeError` (attribute access on a `None` returned by
  `get_step_by_id`) is `Except.error` carrying the unresolved dependency id.
- `datetime` timestamps and the per-entry `data` payload of log records are
  not modelled: no claim mentions them, and they never feed a control
  decision.  `uuid4()` generation is modelled by passing a fresh identifier
  as an argument.  Python float arithmetic for the progress percentage is
  modelled with exact rationals (the field is observability-only).
- In-place mutation of a `PlanStep` object held in `plan_steps` is modelled
  by replacing the list entry at the step's position.
-/

namespace AgentCode

/-- `StepStatus` from state.py: status of individual steps. -/
inductive StepStatus where
  | pending
  | in_progress
  | completed
  | failed
  | skipped
  deriving DecidableEq

/-- Values stored in `AgentState.working_memory` (a `Dict[str, Any]` in the
source).  Only the shapes the modelled code actually stores are listed:
the triage assessment dict, lists of search results (each result kept as an
opaque string) and free text. -/
inductive MemValue where
  | assessment (route : String) (complexity : Int)
  | search_results (results : List String)
  | text (s : String)
  deriving DecidableEq

/-- `PlanStep` from state.py (the `datetime` fields are not modelled). -/
structure PlanStep where
  id : String
  description : String
  action_type : String
  target_files : List String
  dependencies : List String
  reasoning : String
  status : StepStatus
  error_message : Option String
  tools_used : List String
  deriving DecidableEq

/-- `ExecutionMetrics` from state.py (counters only; timestamps omitted). -/
structure ExecutionMetrics where
  total_execution_time : Nat
  internal_searches : Nat
  external_searches : Nat
  files_modified : Nat
  llm_calls : Nat
  deriving DecidableEq

/-- One entry of `AgentState.execution_log`: the node (`NodeType.value`
string) and the message.  Timestamp and `data` payload are not modelled. -/
structure LogEntry where
  node : String
  message : String
  deriving DecidableEq

/-- `AgentState` from state.py. -/
structure AgentState where
  task_id : String
  user_instruction : String
  current_code : String
  route : Option String
  complexity : Option Int
  plan_steps : List PlanStep
  planning_complete : Bool
  execution_log : List LogEntry
  feedback_messages : List String
  working_memory : List (String × MemValue)
  loop_count : Nat
  max_loops : Nat
  task_complete : Bool
  task_failed : Bool
  failure_reason : String
  final_code : Option String
  final_explanation : Option String
  metrics : ExecutionMetrics
  deriving DecidableEq

/-- The default-constructed `AgentState()` (dataclass field defaults;
the uuid default for `task_id` is modelled as the empty string, replaced
by a fresh identifier in `start_task`). -/
def initial_state : AgentState :=
  { task_id := ""
    user_instruction := ""
    current_code := ""
    route := none
    complexity := none
    plan_steps := []
    planning_complete := false
    execution_log := []
    feedback_messages := []
    working_memory := []
    loop_count := 0
    max_loops := 10
    task_complete := false
    task_failed := false
    failure_reason := ""
    final_code := none
    final_explanation := none
    metrics := ⟨0, 0, 0, 0, 0⟩ }

/-- `AgentState.log_message`: append an entry to the execution log. -/
def log_message (st : AgentState) (message node : String) : AgentState :=
  { st with execution_log := st.execution_log ++ [⟨node, message⟩] }

/-- `AgentState.start_task`: capture instruction and code, assign a fresh
task id (supplied as `fresh_id`) and log the start message. -/
def start_task (st : AgentState) (fresh_id instruction code : String) : AgentState :=
  log_message
    { st with user_instruction := instruction, current_code := code, task_id := fresh_id }
    ("Task started: " ++ fresh_id) "triage"

/-- `AgentState.get_step_by_id`: linear scan of `plan_steps` for the id. -/
def get_step_by_id (st : AgentState) (step_id : String) : Option PlanStep :=
  st.plan_steps.find? (fun s => s.id == step_id)

/-- Evaluation of `self.get_step_by_id(dep_id).status == StepStatus.COMPLETED`
for one dependency id.  When `get_step_by_id` returns `None`, the attribute
access raises `AttributeError`, modelled as `Except.error` carrying the
offending dependency id. -/
def dep_completed (st : AgentState) (dep_id : String) : Except String Bool :=
  match get_step_by_id st dep_id with
  | some s => .ok (s.status == StepStatus.completed)
  | none => .error dep_id

/-- `all(self.get_step_by_id(dep_id).status == StepStatus.COMPLETED
for dep_id in step.dependencies)`: short-circuiting conjunction, in order,
propagating the `AttributeError`. -/
def deps_all_completed (st : AgentState) : List String → Except String Bool
  | [] => .ok true
  | d :: ds =>
      match dep_completed st d with
      | .error e => .error e
      | .ok true => deps_all_completed st ds
      | .ok false => .ok false

/-- The scan of `get_next_pending_step` over a suffix of `plan_steps`;
`i` is the position of the head of the suffix in the full list (the
position is carried so that the developer's in-place mutation of the
returned step object can be modelled as a list update at that position). -/
def next_pending_aux (st : AgentState) : List PlanStep → Nat → Except String (Option (Nat × PlanStep))
  | [], _ => .ok none
  | s :: rest, i =>
      if s.status = StepStatus.pending then
        match deps_all_completed st s.dependencies with
        | .error e => .error e
        | .ok true => .ok (some (i, s))
        | .ok false => next_pending_aux st rest (i + 1)
      else next_pending_aux st rest (i + 1)

/-- `AgentState.get_next_pending_step`: first `PENDING` step, in insertion
order, all of whose dependencies are `COMPLETED`; `ok none` when no step
qualifies; `error` when a scanned pending step carries a dependency id that
resolves to no step (the `AttributeError` of state.py line 109). -/
def get_next_pending_step (st : AgentState) : Except String (Option PlanStep) :=
  (next_pending_aux st st.plan_steps 0).map (Option.map Prod.snd)

/-- `AgentState.add_plan_step`: append a new `PENDING` step (its uuid is
the supplied `fresh_id`) and return the new state with the step id. -/
def add_plan_step (st : AgentState) (fresh_id description action_type reasoning : String)
    (target_files dependencies : List String) : AgentState × String :=
  let step : PlanStep :=
    { id := fresh_id
      description := description
      action_type := action_type
      target_files := target_files
      dependencies := dependencies
      reasoning := reasoning
      status := StepStatus.pending
      error_message := none
      tools_used := [] }
  ({ st with plan_steps := st.plan_steps ++ [step] }, fresh_id)

/-- `AgentState.fail_task`: set the failed flag, record the reason, log. -/
def fail_task (st : AgentState) (reason : String) : AgentState :=
  log_message { st with task_failed := true, failure_reason := reason }
    ("Task failed: " ++ reason) "validator"

/-- Association-list update used to model `self.working_memory[key] = value`. -/
def set_assoc : List (String × MemValue) → String → MemValue → List (String × MemValue)
  | [], k, v => [(k, v)]
  | (k1, v1) :: rest, k, v =>
      if k1 == k then (k, v) :: rest else (k1, v1) :: set_assoc rest k v

/-- `AgentState.update_working_memory`. -/
def update_working_memory (st : AgentState) (key : String) (value : MemValue) : AgentState :=
  { st with working_memory := set_assoc st.working_memory key value }

/-- `AgentState.get_from_working_memory` (with no default). -/
def get_from_working_memory (st : AgentState) (key : String) : Option MemValue :=
  (st.working_memory.find? (fun p => p.1 == key)).map Prod.snd

/-- The `"progress"` sub-dictionary of `get_progress_summary`. -/
structure Progress where
  percentage : ℚ
  completed : Nat
  total : Nat
  deriving DecidableEq

/-- The dictionary returned by `get_progress_summary`; `current_step` is
`none` when the key is absent (empty-plan branch). -/
structure ProgressSummary where
  progress : Progress
  current_step : Option String
  deriving DecidableEq

/-- `AgentState.get_progress_summary`.  In the non-empty-plan branch the
source evaluates `get_next_pending_step` for the `"current_step"` entry,
so the scheduler's `AttributeError` propagates out of it. -/
def get_progress_summary (st : AgentState) : Except String ProgressSummary :=
  if st.plan_steps.isEmpty then
    .ok ⟨⟨0, 0, 0⟩, none⟩
  else
    let completed := (st.plan_steps.filter (fun s => s.status == StepStatus.completed)).length
    let total := st.plan_steps.length
    let percentage : ℚ := if 0 < total then ((completed : ℚ) / (total : ℚ)) * 100 else 0
    match get_next_pending_step st with
    | .error e => .error e
    | .ok r =>
        .ok ⟨⟨min 100 (max 0 percentage), completed, total⟩,
             some (match r with | some s => s.description | none => "Finalizing...")⟩

/-- `step.status.value` (the Enum string values of state.py). -/
def status_value : StepStatus → String
  | .pending => "pending"
  | .in_progress => "in_progress"
  | .completed => "completed"
  | .failed => "failed"
  | .skipped => "skipped"

/-- Re-parsing of a serialized status string, inverse of `status_value`. -/
def status_of_value (s : String) : Option StepStatus :=
  if s == "pending" then some .pending
  else if s == "in_progress" then some .in_progress
  else if s == "completed" then some .completed
  else if s == "failed" then some .failed
  else if s == "skipped" then some .skipped
  else none

/-- The per-step dictionary embedded in `to_dict` (state.py lines 205-214). -/
structure StepDict where
  id : String
  description : String
  action_type : String
  status : String
  reasoning : String
  tools_used : List String
  deriving DecidableEq

/-- Per-step serialization inside `to_dict`. -/
def step_to_dict (s : PlanStep) : StepDict :=
  ⟨s.id, s.description, s.action_type, status_value s.status, s.reasoning, s.tools_used⟩

/-- `self.execution_log[-20:]`: the last (at most) `n` entries. -/
def last_n (n : Nat) (l : List LogEntry) : List LogEntry :=
  l.drop (l.length - n)

/-- The dictionary produced by `AgentState.to_dict` (the `created_at` and
`metrics` entries, pure observability timestamps/counters, are omitted). -/
structure StateDict where
  task_id : String
  user_instruction : String
  current_code : String
  route : Option String
  complexity : Option Int
  planning_complete : Bool
  plan_steps : List StepDict
  execution_log : List LogEntry
  feedback_messages : List String
  progress : ProgressSummary
  task_complete : Bool
  task_failed : Bool
  failure_reason : String
  final_code : Option String
  final_explanation : Option String
  deriving DecidableEq

/-- `AgentState.to_dict`: the serializable snapshot published on the
progress channel.  Building the `"progress"` entry evaluates
`get_progress_summary`, so its possible `AttributeError` propagates. -/
def to_dict (st : AgentState) : Except String StateDict :=
  match get_progress_summary st with
  | .error e => .error e
  | .ok prog =>
      .ok { task_id := st.task_id
            user_instruction := st.user_instruction
            current_code := st.current_code
            route := st.route
            complexity := st.complexity
            planning_complete := st.planning_complete
            plan_steps := st.plan_steps.map step_to_dict
            execution_log := last_n 20 st.execution_log
            feedback_messages := st.feedback_messages
            progress := prog
            task_complete := st.task_complete
            task_failed := st.task_failed
            failure_reason := st.failure_reason
            final_code := st.final_code
            final_explanation := st.final_explanation }

/-! ## Python string primitives used by the triage parser

The triage parser of triage.py uses `in`, `str.split`, `str.strip` and the
`int` builtin.  They are modelled here on character lists with structural
recursion so that concrete runs reduce inside the kernel. -/

/-- Does `sep` occur as a contiguous segment of the second list?
Models the Python `in` test for strings. -/
def contains_sub (sep : List Char) : List Char → Bool
  | [] => sep.isEmpty
  | c :: rest => sep.isPrefixOf (c :: rest) || contains_sub sep rest

/-- Characters strictly before, and strictly after, the first occurrence of
`sep` (the whole list and `[]` when `sep` does not occur). -/
def split_first (sep : List Char) : List Char → List Char × List Char
  | [] => ([], [])
  | c :: rest =>
      if sep ≠ [] ∧ sep.isPrefixOf (c :: rest) then ([], (c :: rest).drop sep.length)
      else
        let p := split_first sep rest
        (c :: p.1, p.2)

/-- Python `sub in s`. -/
def py_in (sub s : String) : Bool :=
  contains_sub sub.toList s.toList

/-- Python `s.split(sub)[0]`: the text before the first occurrence of `sub`
(all of `s` when `sub` does not occur). -/
def py_split0 (s sub : String) : String :=
  String.mk (if contains_sub sub.toList s.toList
             then (split_first sub.toList s.toList).1 else s.toList)

/-- Python `s.split(sub)[1]`: the text between the first and the second
occurrence of `sub` (only used by the source when `sub` occurs). -/
def py_split1 (s sub : String) : String :=
  let rest := (split_first sub.toList s.toList).2
  String.mk (if contains_sub sub.toList rest
             then (split_first sub.toList rest).1 else rest)

/-- Python `s.strip()` (ASCII whitespace; the exotic Unicode whitespace
classes Python also strips never occur in the modelled paths). -/
def py_strip (s : String) : String :=
  String.mk (((s.toList.dropWhile Char.isWhitespace).reverse.dropWhile Char.isWhitespace).reverse)

/-- The Python `int` builtin on a base-10 string: optional surrounding
whitespace, optional sign, then digits; `none` models the `ValueError`
it raises otherwise (digit-group underscores are not modelled; no claim
exercises them). -/
def py_int (s : String) : Option Int :=
  let t := (py_strip s).toList
  let p : Int × List Char :=
    match t with
    | '-' :: ds => (-1, ds)
    | '+' :: ds => (1, ds)
    | ds => (1, ds)
  if p.2 ≠ [] ∧ p.2.all Char.isDigit then
    some (p.1 * ((p.2.foldl (fun acc c => acc * 10 + (c.toNat - '0'.toNat)) 0 : Nat) : Int))
  else none

/-! ## Triage (triage.py) -/

/-- Outcome of one external language-model completion call: the returned
text, or a raised exception. -/
inductive LlmOutcome where
  | ok (text : String)
  | error (msg : String)
  deriving DecidableEq

/-- `TriageAgent.assess_request` (triage.py lines 34-60): parse the model
text into a route and a complexity; the `except` branch — reached when the
call raises or when `int(...)` raises `ValueError` — returns the defensive
default `("complex_modification", 8)`. -/
def assess_request (outcome : LlmOutcome) : String × Int :=
  match outcome with
  | .error _ => ("complex_modification", 8)
  | .ok text =>
      let response_text := py_strip text
      let route :=
        if py_in "ROUTE:" response_text then
          py_strip (py_split0 (py_split1 response_text "ROUTE:") "\n")
        else "complex_modification"
      if py_in "COMPLEXITY:" response_text then
        match py_int (py_split1 response_text "COMPLEXITY:") with
        | some c => (route, c)
        | none => ("complex_modification", 8)
      else (route, 5)

/-- `AgentGraph.triage_node`: log, run the assessment, store it in working
memory under `"triage_assessment"`, log again. -/
def triage_node (outcome : LlmOutcome) (st : AgentState) : AgentState :=
  let st1 := log_message st "Triage started." "triage"
  let a := assess_request outcome
  let st2 := update_working_memory st1 "triage_assessment" (.assessment a.1 a.2)
  log_message st2 ("Triage complete: route=" ++ a.1) "triage"

/-- `AgentGraph.route_after_triage`: read the stored assessment route
(default `"planner"` when absent) and branch; only the literal
`"simple_inquiry"` route goes to the simple-inquiry node. -/
def route_after_triage (st : AgentState) : String :=
  let route :=
    match get_from_working_memory st "triage_assessment" with
    | some (.assessment r _) => r
    | _ => "planner"
  if route == "simple_inquiry" then "simple_inquiry" else "planner"

/-! ## Simple inquiry (developer.py lines 205-232, agent_graph.py lines 90-99) -/

/-- Outcome of the inquiry model call. -/
inductive InquiryOutcome where
  | ok (answer : String)
  | error (msg : String)
  deriving DecidableEq

/-- `answer_simple_inquiry`: on success count the model call and return the
answer text; on exception return the fixed apology string.  The task record
is otherwise untouched. -/
def answer_simple_inquiry (outcome : InquiryOutcome) (st : AgentState) : AgentState × String :=
  match outcome with
  | .ok answer =>
      ({ st with metrics := { st.metrics with llm_calls := st.metrics.llm_calls + 1 } }, answer)
  | .error _ =>
      (st, "I\u0027m sorry, I encountered an error while trying to answer your question.")

/-- `AgentGraph.simple_inquiry_node`: log, call `answer_simple_inquiry`
— whose returned answer string the source discards — and log again. -/
def simple_inquiry_node (outcome : InquiryOutcome) (st : AgentState) : AgentState :=
  let st1 := log_message st "Handling simple inquiry." "simple_inquiry"
  let p := answer_simple_inquiry outcome st1
  log_message p.1 "Simple inquiry answered." "simple_inquiry"

/-! ## Planner (planner.py) -/

/-- The step specification extracted from the planner model's JSON output
(`_generate_next_step`); its `dependencies` are the model-produced step id
strings, taken verbatim. -/
structure StepData where
  description : String
  action_type : String
  target_files : List String
  dependencies : List String
  deriving DecidableEq

/-- `AdvancedPlanner.plan_atomic_step`, step-acceptance path (planner.py
lines 51-81).  The searches and the two model calls are external; their
combined outcome enters as `step_data` (`none` models `_generate_next_step`
returning no usable step, which only sets `planning_complete`).  When a step
is produced, `add_plan_step` receives its `dependencies` verbatim — no
validation against existing step ids happens anywhere on this path. -/
def plan_atomic_step (st : AgentState) (fresh_id reasoning : String)
    (step_data : Option StepData) : AgentState × Bool :=
  match step_data with
  | some d =>
      let p := add_plan_step st fresh_id d.description d.action_type reasoning
        d.target_files d.dependencies
      let st1 := log_message p.1 "Node planner executed" "planner"
      (log_message st1 ("Planned atomic step: " ++ d.description) "planner", true)
  | none => ({ st with planning_complete := true }, false)

/-! ## Developer (developer.py) -/

/-- Outcome of the `internal_write` tool call. -/
inductive WriteOutcome where
  | ok (success : Bool)
  | raises (msg : String)
  deriving DecidableEq

/-- Outcome of the `search_internal` / `search_external` tool calls. -/
inductive SearchOutcome where
  | ok (results : List String)
  | raises (msg : String)
  deriving DecidableEq

/-- The tool outcomes visible to one `_execute_action` dispatch. -/
structure ActionEnv where
  write : WriteOutcome
  search : SearchOutcome
  deriving DecidableEq

/-- The result dictionary of `_execute_action`: the `"success"` value and
the optional `"error"` and `"new_code"` entries. -/
structure ExecResult where
  success : Bool
  error : Option String
  new_code : Option String
  deriving DecidableEq

/-- `AdvancedDeveloper._execute_action` (developer.py lines 153-202):
dispatch on the action string.  Any exception a tool raises is caught in
the function's own `except` and returned as `success = False`; an action
string matching no branch falls through to the final
`return {"success": True}` (the source's `# Default success for now`). -/
def execute_action (env : ActionEnv) (action code_block : String)
    (st : AgentState) (step : PlanStep) : ExecResult × AgentState × PlanStep :=
  if action == "WRITE_CODE" then
    match env.write with
    | .raises msg => (⟨false, some msg, none⟩, st, step)
    | .ok true =>
        (⟨true, none, some code_block⟩,
         { st with metrics := { st.metrics with files_modified := st.metrics.files_modified + 1 } },
         { step with tools_used := step.tools_used ++ ["internal_write"] })
    | .ok false => (⟨false, some "Failed to write file", none⟩, st, step)
  else if action == "REFACTOR_CODE" then
    match env.write with
    | .raises msg => (⟨false, some msg, none⟩, st, step)
    | .ok true =>
        (⟨true, none, some code_block⟩,
         { st with metrics := { st.metrics with files_modified := st.metrics.files_modified + 1 } },
         { step with tools_used := step.tools_used ++ ["internal_write"] })
    | .ok false => (⟨false, some "Failed to refactor code", none⟩, st, step)
  else if action == "SEARCH_INTERNAL" then
    match env.search with
    | .raises msg => (⟨false, some msg, none⟩, st, step)
    | .ok results =>
        (⟨true, none, none⟩,
         update_working_memory st ("search_results_" ++ step.id) (.search_results results),
         { step with tools_used := step.tools_used ++ ["search_internal"] })
  else if action == "SEARCH_EXTERNAL" then
    match env.search with
    | .raises msg => (⟨false, some msg, none⟩, st, step)
    | .ok results =>
        (⟨true, none, none⟩,
         update_working_memory st ("search_results_" ++ step.id) (.search_results results),
         { step with tools_used := step.tools_used ++ ["search_external"] })
  else if action == "ANALYZE_CODE" then
    (⟨true, none, none⟩,
     { st with feedback_messages := st.feedback_messages ++ [code_block] }, step)
  else if action == "NO_ACTION" then
    (⟨true, none, none⟩, st, step)
  else
    (⟨true, none, none⟩, st, step)

/-- Outcome of the retry loop over the step-execution model call plus
`_parse_llm_response`: either a parsed `(action, code)` pair, or an empty
`response_text` after all retries — in which case the source raises
`Exception("Failed to get a valid response from LLM after multiple
retries.")`. -/
inductive LlmStepOutcome where
  | parsed (action code : String)
  | exhausted
  deriving DecidableEq

/-- The final `if "new_code" in execution_result:` update of
`execute_atomic_step` (developer.py lines 80-81). -/
def apply_new_code (st : AgentState) (nc : Option String) : AgentState :=
  match nc with
  | some c => { st with current_code := c }
  | none => st

/-- `AdvancedDeveloper.execute_atomic_step` (developer.py lines 31-92).
Three paths through the broad `try`:
- the scheduler raises `AttributeError` (dangling dependency id): caught by
  the `except`, where `next_step` is unbound, so only `task_failed` is set
  and the failure is logged (`failure_reason` is never written);
- the scheduler returns `None`: log `"No more pending steps."` and return
  `False` with the state otherwise untouched — whether the plan is
  exhausted or deadlocked;
- a step is selected: mark it `IN_PROGRESS`; if the model retries are
  exhausted the raised exception is caught with `next_step` bound — the step
  becomes `FAILED` and `task_failed` is set; otherwise `_execute_action`
  runs and the step becomes `COMPLETED`/`FAILED` from its `"success"` value,
  any `"new_code"` replaces `current_code`, and `True` is returned with the
  task flags untouched.
(The Python exception texts are carried without their quote characters.) -/
def execute_atomic_step (llm : LlmStepOutcome) (env : ActionEnv) (st : AgentState) :
    AgentState × Bool :=
  match next_pending_aux st st.plan_steps 0 with
  | .error _ =>
      let st1 : AgentState := { st with task_failed := true }
      (log_message st1
        "Step execution failed: NoneType object has no attribute status" "developer", false)
  | .ok none =>
      (log_message st "No more pending steps." "developer", false)
  | .ok (some (i, step0)) =>
      let st1 := log_message st ("Executing step: " ++ step0.description) "developer"
      let step1 : PlanStep := { step0 with status := StepStatus.in_progress }
      let st2 : AgentState := { st1 with plan_steps := st1.plan_steps.set i step1 }
      match llm with
      | .exhausted =>
          let msg := "Failed to get a valid response from LLM after multiple retries."
          let step2 : PlanStep := { step1 with status := StepStatus.failed, error_message := some msg }
          let st3 : AgentState :=
            { st2 with plan_steps := st2.plan_steps.set i step2, task_failed := true }
          (log_message st3 ("Step execution failed: " ++ msg) "developer", false)
      | .parsed action code =>
          let r := execute_action env action code st2 step1
          let step3 : PlanStep :=
            { r.2.2 with
              status := if r.1.success then StepStatus.completed else StepStatus.failed
              error_message := some (r.1.error.getD "") }
          let st4 : AgentState := { r.2.1 with plan_steps := r.2.1.plan_steps.set i step3 }
          let st5 := log_message st4
            ("Step " ++ step0.description ++ " completed with status: " ++ status_value step3.status)
            "developer"
          (apply_new_code st5 r.1.new_code, true)

/-- `AgentGraph.decide_after_developer` (agent_graph.py lines 121-128):
the only test deciding whether the Execute self-loop continues. -/
def decide_after_developer (st : AgentState) : String :=
  if st.task_complete || st.task_failed then "end" else "continue"

/-! ## Reachability

The operations that mutate a task record anywhere in the repository:
task creation, the triage / simple-inquiry / planner / developer graph
nodes, and the external cancellation path (server.py `cancel_task`, which
calls `fail_task`). -/

/-- States a task record can reach through the repository's operations. -/
inductive Reachable : AgentState → Prop where
  | init (fresh_id instruction code : String) :
      Reachable (start_task initial_state fresh_id instruction code)
  | triage (o : LlmOutcome) {st : AgentState} :
      Reachable st → Reachable (triage_node o st)
  | inquiry (o : InquiryOutcome) {st : AgentState} :
      Reachable st → Reachable (simple_inquiry_node o st)
  | plan (fresh_id reasoning : String) (d : Option StepData) {st : AgentState} :
      Reachable st → Reachable (plan_atomic_step st fresh_id reasoning d).1
  | develop (llm : LlmStepOutcome) (env : ActionEnv) {st : AgentState} :
      Reachable st → Reachable (execute_atomic_step llm env st).1
  | cancel (reason : String) {st : AgentState} :
      Reachable st → Reachable (fail_task st reason)

/-! ## Spec-side scheduler description (for the refinement claim C2)

These two definitions follow the words of spec.md §4.2 ("return the first
step whose status is `Pending` and whose every dependency id resolves to a
step with status `Completed`"), to be compared with the source-translated
`get_next_pending_step`. -/

/-- From the spec: the dependency id resolves to a `Completed` step. -/
def spec_dep_completed (st : AgentState) (dep_id : String) : Bool :=
  match get_step_by_id st dep_id with
  | some s => s.status == StepStatus.completed
  | none => false

/-- From the spec: a step is runnable when it is `Pending` and every
dependency resolves to a `Completed` step. -/
def spec_runnable (st : AgentState) (s : PlanStep) : Bool :=
  s.status == StepStatus.pending && s.dependencies.all (spec_dep_completed st)

/-! ## Concrete fixtures used by counterexamples and witnesses -/

/-- A plan step with the given id, description, action type, dependencies
and status, and default remaining fields. -/
def mk_step (id description action_type : String) (dependencies : List String)
    (status : StepStatus) : PlanStep :=
  { id := id
    description := description
    action_type := action_type
    target_files := []
    dependencies := dependencies
    reasoning := ""
    status := status
    error_message := none
    tools_used := [] }

/-- Benign tool environment: writes succeed, searches return nothing. -/
def env0 : ActionEnv := ⟨.ok true, .ok []⟩

/-- Tool environment in which `internal_write` returns `False`. -/
def env_write_fail : ActionEnv := ⟨.ok false, .ok []⟩

/-- A consistent three-step plan: s1 completed, s2 pending on s1, s3
pending on s2. -/
def sched_state : AgentState :=
  { initial_state with plan_steps :=
      [mk_step "s1" "prepare" "analyze" [] StepStatus.completed,
       mk_step "s2" "write the code" "write" ["s1"] StepStatus.pending,
       mk_step "s3" "validate" "test" ["s2"] StepStatus.pending] }

/-- A plan with a pending step whose dependency id matches no step. -/
def dangling_state : AgentState :=
  { initial_state with plan_steps :=
      [mk_step "s1" "orphan step" "write" ["missing"] StepStatus.pending] }

/-- A deadlocked plan: step a failed, step b pending and dependent on a. -/
def deadlock_state : AgentState :=
  { initial_state with plan_steps :=
      [mk_step "a" "step a" "write" [] StepStatus.failed,
       mk_step "b" "step b" "write" ["a"] StepStatus.pending] }

/-- An exhausted plan: its only step is completed. -/
def exhausted_state : AgentState :=
  { initial_state with plan_steps :=
      [mk_step "a" "step a" "write" [] StepStatus.completed] }

/-- A non-terminal task whose loop counter has reached the ceiling
(`loop_count = max_loops = 10`) with a runnable step left. -/
def ceiling_state : AgentState :=
  { initial_state with
    loop_count := 10
    plan_steps := [mk_step "p1" "keep going" "analyze" [] StepStatus.pending] }

/-- A plan whose only step is a pending write. -/
def write_state : AgentState :=
  { initial_state with plan_steps :=
      [mk_step "w1" "write the file" "write" [] StepStatus.pending] }

/-- A plan whose only step is pending with an unrecognized action type. -/
def unknown_state : AgentState :=
  { initial_state with plan_steps :=
      [mk_step "u1" "do the thing" "mystery" [] StepStatus.pending] }

/-- A task already in the failed terminal state. -/
def failed_once : AgentState :=
  fail_task (start_task initial_state "tid-8" "add a feature" "x = 1") "first failure"

/-- The state after triaging a simple inquiry. -/
def inquiry_triaged : AgentState :=
  triage_node (.ok "ROUTE: simple_inquiry\nCOMPLEXITY: 1")
    (start_task initial_state "tid-6" "What is a Python list?" "")

/-- The terminal state of the simple-inquiry path: the answer model call
succeeded, the workflow then reaches END. -/
def inquiry_run : AgentState :=
  simple_inquiry_node (.ok "A Python list is a mutable sequence.") inquiry_triaged

/-- A failed task record used for the serialization round trip. -/
def rt_state : AgentState :=
  { initial_state with
    task_failed := true
    failure_reason := "boom"
    final_code := some "x = 1" }

/-- The snapshot dictionary of `rt_state`. -/
def rt_dict : StateDict :=
  { task_id := ""
    user_instruction := ""
    current_code := ""
    route := none
    complexity := none
    planning_complete := false
    plan_steps := []
    execution_log := []
    feedback_messages := []
    progress := ⟨⟨0, 0, 0⟩, none⟩
    task_complete := false
    task_failed := true
    failure_reason := "boom"
    final_code := some "x = 1"
    final_explanation := none }

/-! ## Helper lemmas: the scheduler -/

/-- When `dep_completed` returns a value, it is the spec-side check. -/
theorem spec_dep_completed_eq (st : AgentState) (d : String) (b : Bool)
    (h : dep_completed st d = .ok b) : spec_dep_completed st d = b := by
  unfold dep_completed at h
  unfold spec_dep_completed
  cases hg : get_step_by_id st d with
  | none => rw [hg] at h; cases h
  | some s => rw [hg] at h; injection h with h

/-- When every dependency id resolves, the short-circuiting Python
conjunction returns the spec-side conjunction. -/
theorem deps_all_completed_of_resolved (st : AgentState) (ds : List String)
    (h : ∀ d ∈ ds, (get_step_by_id st d).isSome) :
    deps_all_completed st ds = .ok (ds.all (spec_dep_completed st)) := by
  induction ds with
  | nil => rfl
  | cons d ds ih =>
      have hd : (get_step_by_id st d).isSome = true := h d (List.mem_cons_self d ds)
      rw [Option.isSome_iff_exists] at hd
      obtain ⟨s, hs⟩ := hd
      have hrest : ∀ x ∈ ds, (get_step_by_id st x).isSome := fun x hx =>
        h x (List.mem_cons_of_mem d hx)
      have hdc : dep_completed st d = .ok (s.status == StepStatus.completed) := by
        unfold dep_completed; rw [hs]
      have hsd : spec_dep_completed st d = (s.status == StepStatus.completed) := by
        unfold spec_dep_completed; rw [hs]
      rw [List.all_cons, hsd]
      show (match dep_completed st d with
            | .error e => .error e
            | .ok true => deps_all_completed st ds
            | .ok false => .ok false) =
          Except.ok ((s.status == StepStatus.completed) && ds.all (spec_dep_completed st))
      rw [hdc]
      cases hb : (s.status == StepStatus.completed) with
      | true => simpa using ih hrest
      | false => simp

/-- If the Python conjunction returns `True`, every dependency passed the
spec-side check. -/
theorem all_of_deps_all_completed (st : AgentState) (ds : List String)
    (h : deps_all_completed st ds = .ok true) :
    ds.all (spec_dep_completed st) = true := by
  induction ds with
  | nil => rfl
  | cons d ds ih =>
      rw [show deps_all_completed st (d :: ds) =
            (match dep_completed st d with
             | .error e => .error e
             | .ok true => deps_all_completed st ds
             | .ok false => .ok false) from rfl] at h
      cases hd : dep_completed st d with
      | error e => rw [hd] at h; cases h
      | ok b =>
          rw [hd] at h
          cases b with
          | false => cases h
          | true =>
              rw [List.all_cons, spec_dep_completed_eq st d true hd, ih h]
              rfl

/-- Under the no-dangling-dependency precondition, the scan agrees with
"first step satisfying the spec-side runnable predicate". -/
theorem next_pending_aux_map_snd (st : AgentState) (l : List PlanStep)
    (h : ∀ s ∈ l, s.status = StepStatus.pending →
      ∀ d ∈ s.dependencies, (get_step_by_id st d).isSome) :
    ∀ i : Nat, (next_pending_aux st l i).map (Option.map Prod.snd) =
      .ok (l.find? (spec_runnable st)) := by
  induction l with
  | nil => intro i; rfl
  | cons s rest ih =>
      intro i
      have hrest : ∀ x ∈ rest, x.status = StepStatus.pending →
          ∀ d ∈ x.dependencies, (get_step_by_id st d).isSome :=
        fun x hx => h x (List.mem_cons_of_mem s hx)
      by_cases hp : s.status = StepStatus.pending
      · have hdeps := deps_all_completed_of_resolved st s.dependencies
          (h s (List.mem_cons_self s rest) hp)
        show ((if s.status = StepStatus.pending then
              match deps_all_completed st s.dependencies with
              | .error e => .error e
              | .ok true => .ok (some (i, s))
              | .ok false => next_pending_aux st rest (i + 1)
            else next_pending_aux st rest (i + 1)).map (Option.map Prod.snd)) = _
        rw [if_pos hp, hdeps]
        cases hall : s.dependencies.all (spec_dep_completed st) with
        | true =>
            have hr : spec_runnable st s = true := by
              unfold spec_runnable
              rw [hall, beq_iff_eq.mpr hp]
              rfl
            rw [List.find?_cons_of_pos _ hr]
            rfl
        | false =>
            have hr : spec_runnable st s = false := by
              unfold spec_runnable
              rw [hall]
              simp
            rw [List.find?_cons_of_neg _ (by rw [hr]; simp)]
            exact ih hrest (i + 1)
      · show ((if s.status = StepStatus.pending then
              match deps_all_completed st s.dependencies with
              | .error e => .error e
              | .ok true => .ok (some (i, s))
              | .ok false => next_pending_aux st rest (i + 1)
            else next_pending_aux st rest (i + 1)).map (Option.map Prod.snd)) = _
        rw [if_neg hp]
        have hr : spec_runnable st s = false := by
          unfold spec_runnable
          rw [show (s.status == StepStatus.pending) = false from
            beq_eq_false_iff_ne.mpr hp]
          rfl
        rw [List.find?_cons_of_neg _ (by rw [hr]; simp)]
        exact ih hrest (i + 1)

/-- Unconditional dependency safety: whenever the scan selects a step, the
step is pending and all of its dependencies resolved to completed steps. -/
theorem next_pending_aux_selected (st : AgentState) (l : List PlanStep) :
    ∀ (i j : Nat) (s : PlanStep), next_pending_aux st l i = .ok (some (j, s)) →
      s.status = StepStatus.pending ∧ s.dependencies.all (spec_dep_completed st) = true := by
  induction l with
  | nil => intro i j s h; cases h
  | cons t rest ih =>
      intro i j s h
      rw [show next_pending_aux st (t :: rest) i =
            (if t.status = StepStatus.pending then
              match deps_all_completed st t.dependencies with
              | .error e => .error e
              | .ok true => .ok (some (i, t))
              | .ok false => next_pending_aux st rest (i + 1)
            else next_pending_aux st rest (i + 1)) from rfl] at h
      by_cases hp : t.status = StepStatus.pending
      · rw [if_pos hp] at h
        cases hd : deps_all_completed st t.dependencies with
        | error e => rw [hd] at h; cases h
        | ok b =>
            rw [hd] at h
            cases b with
            | false => exact ih (i + 1) j s h
            | true =>
                injection h with h
                injection h with h
                cases h
                exact ⟨hp, all_of_deps_all_completed st t.dependencies hd⟩
      · rw [if_neg hp] at h
        exact ih (i + 1) j s h

/-! ## Helper lemmas: which fields each operation leaves untouched -/

theorem execute_action_task_complete (env : ActionEnv) (a c : String)
    (st : AgentState) (step : PlanStep) :
    (execute_action env a c st step).2.1.task_complete = st.task_complete := by
  unfold execute_action update_working_memory
  repeat' split
  all_goals rfl

theorem execute_action_task_failed (env : ActionEnv) (a c : String)
    (st : AgentState) (step : PlanStep) :
    (execute_action env a c st step).2.1.task_failed = st.task_failed := by
  unfold execute_action update_working_memory
  repeat' split
  all_goals rfl

theorem execute_action_loop_count (env : ActionEnv) (a c : String)
    (st : AgentState) (step : PlanStep) :
    (execute_action env a c st step).2.1.loop_count = st.loop_count := by
  unfold execute_action update_working_memory
  repeat' split
  all_goals rfl

theorem execute_action_max_loops (env : ActionEnv) (a c : String)
    (st : AgentState) (step : PlanStep) :
    (execute_action env a c st step).2.1.max_loops = st.max_loops := by
  unfold execute_action update_working_memory
  repeat' split
  all_goals rfl

theorem execute_action_failure_reason (env : ActionEnv) (a c : String)
    (st : AgentState) (step : PlanStep) :
    (execute_action env a c st step).2.1.failure_reason = st.failure_reason := by
  unfold execute_action update_working_memory
  repeat' split
  all_goals rfl

theorem apply_new_code_task_complete (st : AgentState) (nc : Option String) :
    (apply_new_code st nc).task_complete = st.task_complete := by
  cases nc <;> rfl

theorem apply_new_code_task_failed (st : AgentState) (nc : Option String) :
    (apply_new_code st nc).task_failed = st.task_failed := by
  cases nc <;> rfl

theorem apply_new_code_loop_count (st : AgentState) (nc : Option String) :
    (apply_new_code st nc).loop_count = st.loop_count := by
  cases nc <;> rfl

theorem apply_new_code_max_loops (st : AgentState) (nc : Option String) :
    (apply_new_code st nc).max_loops = st.max_loops := by
  cases nc <;> rfl

theorem apply_new_code_failure_reason (st : AgentState) (nc : Option String) :
    (apply_new_code st nc).failure_reason = st.failure_reason := by
  cases nc <;> rfl

theorem execute_atomic_step_task_complete (llm : LlmStepOutcome) (env : ActionEnv)
    (st : AgentState) :
    (execute_atomic_step llm env st).1.task_complete = st.task_complete := by
  unfold execute_atomic_step
  cases haux : next_pending_aux st st.plan_steps 0 with
  | error e => rfl
  | ok o =>
      cases o with
      | none => rfl
      | some p =>
          cases llm with
          | exhausted => rfl
          | parsed a c =>
              simp only [log_message, apply_new_code_task_complete,
                execute_action_task_complete]

theorem execute_atomic_step_loop_count (llm : LlmStepOutcome) (env : ActionEnv)
    (st : AgentState) :
    (execute_atomic_step llm env st).1.loop_count = st.loop_count := by
  unfold execute_atomic_step
  cases haux : next_pending_aux st st.plan_steps 0 with
  | error e => rfl
  | ok o =>
      cases o with
      | none => rfl
      | some p =>
          cases llm with
          | exhausted => rfl
          | parsed a c =>
              simp only [log_message, apply_new_code_loop_count,
                execute_action_loop_count]

theorem execute_atomic_step_max_loops (llm : LlmStepOutcome) (env : ActionEnv)
    (st : AgentState) :
    (execute_atomic_step llm env st).1.max_loops = st.max_loops := by
  unfold execute_atomic_step
  cases haux : next_pending_aux st st.plan_steps 0 with
  | error e => rfl
  | ok o =>
      cases o with
      | none => rfl
      | some p =>
          cases llm with
          | exhausted => rfl
          | parsed a c =>
              simp only [log_message, apply_new_code_max_loops,
                execute_action_max_loops]

/-! ## Claim theorems -/

/-- Claim C2: for every plan whose pending steps' dependency ids all resolve
to steps in `plan_steps`, `get_next_pending_step` returns exactly the first
step in insertion order that is `Pending` with all dependencies `Completed`
(`List.find?` of the spec-side `spec_runnable` predicate), hence `none`
when no such step exists; and — unconditionally — any step it returns is
`Pending` with every dependency resolving to a `Completed` step. -/
theorem scheduler_selects_first_runnable (st : AgentState) :
    ((∀ s ∈ st.plan_steps, s.status = StepStatus.pending →
        ∀ d ∈ s.dependencies, (get_step_by_id st d).isSome) →
      get_next_pending_step st = .ok (st.plan_steps.find? (spec_runnable st))) ∧
    (∀ s : PlanStep, get_next_pending_step st = .ok (some s) →
      s.status = StepStatus.pending ∧ s.dependencies.all (spec_dep_completed st) = true) := by
  constructor
  · intro h
    exact next_pending_aux_map_snd st st.plan_steps h 0
  · intro s hs
    unfold get_next_pending_step at hs
    cases haux : next_pending_aux st st.plan_steps 0 with
    | error e => rw [haux] at hs; cases hs
    | ok o =>
        rw [haux] at hs
        cases o with
        | none => cases hs
        | some p =>
            obtain ⟨j, t⟩ := p
            have ht : t = s := by
              injection hs with hs
              injection hs
            subst ht
            exact next_pending_aux_selected st st.plan_steps 0 j t haux

/-- Witness for C2 on a concrete three-step plan: the precondition holds,
the scheduler output is the first runnable step, and that step is s2. -/
theorem scheduler_selects_first_runnable_witness :
    (∀ s ∈ sched_state.plan_steps, s.status = StepStatus.pending →
        ∀ d ∈ s.dependencies, (get_step_by_id sched_state d).isSome) ∧
    get_next_pending_step sched_state =
      .ok (sched_state.plan_steps.find? (spec_runnable sched_state)) ∧
    sched_state.plan_steps.find? (spec_runnable sched_state) =
      some (mk_step "s2" "write the code" "write" ["s1"] StepStatus.pending) :=
  ⟨by decide, (scheduler_selects_first_runnable sched_state).1 (by decide), by decide⟩

/-- Claim C10: the scheduler is total under the no-dangling-dependency
precondition; on a plan with a pending step whose dependency id matches no
step it raises (the `AttributeError` on the `None` from `get_step_by_id`)
instead of returning `None`; and the planner's acceptance path inserts the
model-produced dependency ids into the plan verbatim, with no validation. -/
theorem scheduler_partial_on_dangling_deps :
    (∀ st : AgentState,
      (∀ s ∈ st.plan_steps, s.status = StepStatus.pending →
          ∀ d ∈ s.dependencies, (get_step_by_id st d).isSome) →
      ∃ r, get_next_pending_step st = .ok r) ∧
    get_next_pending_step dangling_state = .error "missing" ∧
    (∀ (st : AgentState) (fresh_id reasoning : String) (d : StepData),
      (plan_atomic_step st fresh_id reasoning (some d)).1.plan_steps.map PlanStep.dependencies =
        st.plan_steps.map PlanStep.dependencies ++ [d.dependencies]) := by
  refine ⟨?_, by rfl, ?_⟩
  · intro st h
    exact ⟨_, next_pending_aux_map_snd st st.plan_steps h 0⟩
  · intro st fid reasoning d
    simp [plan_atomic_step, add_plan_step, log_message]

/-- Witness for C10: the totality part applied to the concrete resolved
plan `sched_state`. -/
theorem scheduler_partial_on_dangling_deps_witness :
    (∀ s ∈ sched_state.plan_steps, s.status = StepStatus.pending →
        ∀ d ∈ s.dependencies, (get_step_by_id sched_state d).isSome) ∧
    ∃ r, get_next_pending_step sched_state = .ok r :=
  ⟨by decide, scheduler_partial_on_dangling_deps.1 sched_state (by decide)⟩

/-- Counterexample to claim C1 at a concrete input: a task at the ceiling
(`loop_count = max_loops = 10`) with neither terminal flag set is not
force-terminated as failed — `decide_after_developer` continues the
Execute self-loop — and an iteration of the loop leaves `loop_count`
unincremented and the task unfailed. -/
theorem loop_ceiling_counterexample :
    ceiling_state.max_loops ≤ ceiling_state.loop_count ∧
    ceiling_state.task_complete = false ∧
    ceiling_state.task_failed = false ∧
    decide_after_developer ceiling_state = "continue" ∧
    (execute_atomic_step (.parsed "NO_ACTION" "") env0 ceiling_state).1.loop_count =
      ceiling_state.loop_count ∧
    (execute_atomic_step (.parsed "NO_ACTION" "") env0 ceiling_state).1.task_failed = false := by
  refine ⟨by decide, by decide, by decide, by decide, by decide, by decide⟩

/-- Claim C1 as amended: `loop_count` is trivially non-decreasing because
no operation ever modifies it (it stays 0 on every reachable task record,
and `max_loops` stays 10), and the Execute self-loop is not bounded by
`max_loops`: `decide_after_developer` continues whenever neither terminal
flag is set, regardless of `loop_count`. -/
theorem loop_count_never_incremented :
    (∀ st : AgentState, Reachable st → st.loop_count = 0 ∧ st.max_loops = 10) ∧
    (∀ st : AgentState, st.task_complete = false → st.task_failed = false →
      decide_after_developer st = "continue") := by
  constructor
  · intro st h
    induction h with
    | init fresh_id instruction code => exact ⟨rfl, rfl⟩
    | triage o _ ih => exact ih
    | inquiry o _ ih => cases o <;> exact ih
    | plan fresh_id reasoning d _ ih => cases d <;> exact ih
    | develop llm env _ ih =>
        rw [execute_atomic_step_loop_count, execute_atomic_step_max_loops]
        exact ih
    | cancel reason _ ih => exact ih
  · intro st h1 h2
    simp [decide_after_developer, h1, h2]

/-- Witness for C1 (amended): the reachability part at a freshly started
task, and the continue part at the concrete over-ceiling state. -/
theorem loop_count_never_incremented_witness :
    ((start_task initial_state "tid-1" "inst" "code").loop_count = 0 ∧
      (start_task initial_state "tid-1" "inst" "code").max_loops = 10) ∧
    decide_after_developer ceiling_state = "continue" :=
  ⟨loop_count_never_incremented.1 _ (Reachable.init "tid-1" "inst" "code"),
   loop_count_never_incremented.2 ceiling_state (by decide) (by decide)⟩

/-- Counterexample to claim C3 at a concrete input: in `deadlock_state` a
step is still `Pending` and the scheduler returns `None`, yet the developer
iteration does not mark the task failed, records no failure reason (so no
diagnostic with the unresolved step ids), and the state machine simply
continues — deadlock is not detected, and neither is exhaustion treated as
success. -/
theorem deadlock_counterexample :
    (deadlock_state.plan_steps.any fun s => s.status == StepStatus.pending) = true ∧
    get_next_pending_step deadlock_state = .ok none ∧
    (execute_atomic_step (.parsed "NO_ACTION" "") env0 deadlock_state).1.task_failed = false ∧
    (execute_atomic_step (.parsed "NO_ACTION" "") env0 deadlock_state).1.task_complete = false ∧
    (execute_atomic_step (.parsed "NO_ACTION" "") env0 deadlock_state).1.failure_reason = "" ∧
    decide_after_developer (execute_atomic_step (.parsed "NO_ACTION" "") env0 deadlock_state).1 =
      "continue" := by
  refine ⟨by decide, by rfl, by decide, by decide, by decide, by decide⟩

/-- Claim C3 as amended: whenever the scheduler returns `None` — whether the
plan is deadlocked or fully exhausted — `execute_atomic_step` only logs the
fixed message `"No more pending steps."` and returns `False`, leaving every
other field (in particular both terminal flags and `failure_reason`)
unchanged; no deadlock diagnosis, step ids, task failure or success marking
happens. -/
theorem scheduler_none_only_logs (llm : LlmStepOutcome) (env : ActionEnv)
    (st : AgentState) (h : get_next_pending_step st = .ok none) :
    execute_atomic_step llm env st =
      (log_message st "No more pending steps." "developer", false) := by
  unfold get_next_pending_step at h
  unfold execute_atomic_step
  cases haux : next_pending_aux st st.plan_steps 0 with
  | error e => rw [haux] at h; cases h
  | ok o =>
      cases o with
      | none => rfl
      | some p => rw [haux] at h; cases h

/-- Witness for C3 (amended) at the exhausted concrete plan. -/
theorem scheduler_none_only_logs_witness :
    get_next_pending_step exhausted_state = .ok none ∧
    execute_atomic_step (.parsed "NO_ACTION" "") env0 exhausted_state =
      (log_message exhausted_state "No more pending steps." "developer", false) :=
  ⟨by rfl, scheduler_none_only_logs (.parsed "NO_ACTION" "") env0 exhausted_state (by rfl)⟩

/-- Counterexample to claim C4 at a concrete input: executing a pending step
whose parsed action is the unrecognized `"FROBNICATE"` is not a hard error —
the step is silently marked `Completed`, the task is not failed, and the
loop continues to subsequent steps. -/
theorem unknown_action_counterexample :
    ((execute_atomic_step (.parsed "FROBNICATE" "") env0 unknown_state).1.plan_steps.map
        PlanStep.status = [StepStatus.completed]) ∧
    (execute_atomic_step (.parsed "FROBNICATE" "") env0 unknown_state).2 = true ∧
    (execute_atomic_step (.parsed "FROBNICATE" "") env0 unknown_state).1.task_failed = false ∧
    decide_after_developer
      (execute_atomic_step (.parsed "FROBNICATE" "") env0 unknown_state).1 = "continue" := by
  refine ⟨by decide, by decide, by decide, by decide⟩

/-- Claim C4 as amended: an action string matching none of the recognized
action branches falls through to `return {"success": True}` — the dispatch
reports success with no error and no state change, so the step is treated
exactly like a successful one (there is no `UnknownAction` error anywhere). -/
theorem unknown_action_default_success (env : ActionEnv) (action code : String)
    (st : AgentState) (step : PlanStep)
    (h : action ∉ (["WRITE_CODE", "REFACTOR_CODE", "SEARCH_INTERNAL", "SEARCH_EXTERNAL",
        "ANALYZE_CODE", "NO_ACTION"] : List String)) :
    execute_action env action code st step = (⟨true, none, none⟩, st, step) := by
  simp only [List.mem_cons, List.mem_singleton, not_or] at h
  obtain ⟨h1, h2, h3, h4, h5, h6⟩ := h
  simp [execute_action, beq_iff_eq, h1, h2, h3, h4, h5, h6]

/-- Witness for C4 (amended): the dispatch applied to the concrete
unrecognized action `"FROBNICATE"`. -/
theorem unknown_action_default_success_witness :
    ("FROBNICATE" ∉ (["WRITE_CODE", "REFACTOR_CODE", "SEARCH_INTERNAL", "SEARCH_EXTERNAL",
        "ANALYZE_CODE", "NO_ACTION"] : List String)) ∧
    execute_action env0 "FROBNICATE" "" initial_state
        (mk_step "u1" "do the thing" "mystery" [] StepStatus.pending) =
      (⟨true, none, none⟩, initial_state,
        mk_step "u1" "do the thing" "mystery" [] StepStatus.pending) :=
  ⟨by decide, unknown_action_default_success env0 "FROBNICATE" "" initial_state
    (mk_step "u1" "do the thing" "mystery" [] StepStatus.pending) (by decide)⟩

/-- Counterexample to claim C5 at a concrete input: the write action of the
only pending step reports failure, the step becomes `Failed` with its error
recorded, yet the task is not marked failed and the state machine
continues past it. -/
theorem failed_step_counterexample :
    ((execute_atomic_step (.parsed "WRITE_CODE" "x = 2") env_write_fail write_state).1.plan_steps.map
        PlanStep.status = [StepStatus.failed]) ∧
    ((execute_atomic_step (.parsed "WRITE_CODE" "x = 2") env_write_fail write_state).1.plan_steps.map
        PlanStep.error_message = [some "Failed to write file"]) ∧
    (execute_atomic_step (.parsed "WRITE_CODE" "x = 2") env_write_fail write_state).1.task_failed =
      false ∧
    (execute_atomic_step (.parsed "WRITE_CODE" "x = 2") env_write_fail write_state).2 = true ∧
    decide_after_developer
      (execute_atomic_step (.parsed "WRITE_CODE" "x = 2") env_write_fail write_state).1 =
      "continue" := by
  refine ⟨by decide, by decide, by decide, by decide, by decide⟩

/-- Claim C5 as amended: whenever the scheduler yields a step and the model
response parses, `execute_atomic_step` never marks the task failed and
always returns `True` — even when the dispatched action reports failure and
the step is marked `Failed`; no action type is treated as critical (only
raised exceptions, i.e. model-retry exhaustion or the scheduler crash, set
`task_failed`). -/
theorem failed_step_not_task_fatal (env : ActionEnv) (action code : String)
    (st : AgentState) (s : PlanStep)
    (h : get_next_pending_step st = .ok (some s)) :
    (execute_atomic_step (.parsed action code) env st).1.task_failed = st.task_failed ∧
    (execute_atomic_step (.parsed action code) env st).2 = true := by
  unfold get_next_pending_step at h
  cases haux : next_pending_aux st st.plan_steps 0 with
  | error e => rw [haux] at h; cases h
  | ok o =>
      cases o with
      | none => rw [haux] at h; cases h
      | some p =>
          obtain ⟨i, t⟩ := p
          unfold execute_atomic_step
          rw [haux]
          constructor
          · simp only [log_message, apply_new_code_task_failed, execute_action_task_failed]
          · rfl

/-- Witness for C5 (amended) at the concrete one-step write plan. -/
theorem failed_step_not_task_fatal_witness :
    get_next_pending_step write_state =
      .ok (some (mk_step "w1" "write the file" "write" [] StepStatus.pending)) ∧
    ((execute_atomic_step (.parsed "WRITE_CODE" "x = 2") env_write_fail write_state).1.task_failed =
        write_state.task_failed ∧
      (execute_atomic_step (.parsed "WRITE_CODE" "x = 2") env_write_fail write_state).2 = true) :=
  ⟨by rfl, failed_step_not_task_fatal env_write_fail "WRITE_CODE" "x = 2" write_state
    (mk_step "w1" "write the file" "write" [] StepStatus.pending) (by rfl)⟩

/-- Looking up a key right after setting it in the association list. -/
theorem find_set_assoc (l : List (String × MemValue)) (k : String) (v : MemValue) :
    ((set_assoc l k v).find? (fun p => p.1 == k)).map Prod.snd = some v := by
  induction l with
  | nil => simp [set_assoc, List.find?]
  | cons p rest ih =>
      obtain ⟨k1, v1⟩ := p
      by_cases hk : k1 = k
      · subst hk
        simp [set_assoc, List.find?]
      · have hb : (k1 == k) = false := beq_eq_false_iff_ne.mpr hk
        simp only [set_assoc, hb]
        rw [if_neg (by simp)]
        rw [show List.find? (fun p => p.1 == k) ((k1, v1) :: set_assoc rest k v) =
              List.find? (fun p => p.1 == k) (set_assoc rest k v) from
            List.find?_cons_of_neg _ (by simpa using hk)]
        exact ih

/-- `working_memory[key] = value` followed by `.get(key)` returns `value`. -/
theorem get_from_update (st : AgentState) (k : String) (v : MemValue) :
    get_from_working_memory (update_working_memory st k v) k = some v := by
  unfold get_from_working_memory update_working_memory
  exact find_set_assoc st.working_memory k v

/-- Claim C6 (evaluating the code at the failing input): on the
simple-inquiry path — here the concrete question "What is a Python list?"
triaged to the `simple_inquiry` route, answered successfully by the model —
the terminal snapshot published at END carries `task_complete = false`,
`task_failed = false`, no final code and no final explanation, because
`simple_inquiry_node` discards the answer returned by
`answer_simple_inquiry` and nothing sets any terminal field. -/
theorem simple_inquiry_terminal_snapshot_unset :
    route_after_triage inquiry_triaged = "simple_inquiry" ∧
    inquiry_run.task_complete = false ∧
    inquiry_run.task_failed = false ∧
    inquiry_run.final_code = none ∧
    inquiry_run.final_explanation = none ∧
    inquiry_run.failure_reason = "" ∧
    (to_dict inquiry_run).toOption.map
        (fun d => (d.task_complete, d.task_failed, d.final_code, d.final_explanation)) =
      some (false, false, none, none) := by
  refine ⟨by decide, by decide, by decide, by decide, by decide, by decide, by decide⟩

/-- Counterexample to claim C7 at a concrete input: a model reply with
neither a `ROUTE:` nor a `COMPLEXITY:` marker is a parse failure, yet the
classifier returns the baseline complexity 5 — not the high fixed value 8
the claim requires (the route default does hold). -/
theorem classifier_parse_default_counterexample :
    assess_request (.ok "I cannot classify this request.") = ("complex_modification", 5) ∧
    (5 : Int) ≠ 8 := by
  refine ⟨by decide, by decide⟩

/-- Claim C7 as amended: when the external call raises, the classifier
returns `("complex_modification", 8)` and the task is then routed to the
planner branch, never to simple-answer; but when the call succeeds and the
reply merely lacks the `ROUTE:`/`COMPLEXITY:` markers, the defaults are
`("complex_modification", 5)` — the high value 8 is used only for raised
exceptions (including a `ValueError` from parsing the complexity integer). -/
theorem classifier_fail_safe :
    (∀ (msg : String) (st : AgentState),
      assess_request (.error msg) = ("complex_modification", 8) ∧
      route_after_triage (triage_node (.error msg) st) = "planner") ∧
    (∀ text : String,
      py_in "ROUTE:" (py_strip text) = false →
      py_in "COMPLEXITY:" (py_strip text) = false →
      assess_request (.ok text) = ("complex_modification", 5)) := by
  constructor
  · intro msg st
    refine ⟨rfl, ?_⟩
    unfold triage_node route_after_triage
    rw [show get_from_working_memory
          (log_message
            (update_working_memory (log_message st "Triage started." "triage")
              "triage_assessment"
              (.assessment (assess_request (.error msg)).1 (assess_request (.error msg)).2))
            ("Triage complete: route=" ++ (assess_request (.error msg)).1) "triage")
          "triage_assessment" =
        get_from_working_memory
          (update_working_memory (log_message st "Triage started." "triage")
            "triage_assessment"
            (.assessment (assess_request (.error msg)).1 (assess_request (.error msg)).2))
          "triage_assessment" from rfl]
    rw [get_from_update]
    rfl
  · intro text h1 h2
    simp [assess_request, h1, h2]

/-- Witness for C7 (amended): the parse-default part applied to a concrete
marker-free reply, and the exception part at a concrete raised message. -/
theorem classifier_fail_safe_witness :
    (py_in "ROUTE:" (py_strip "garbled reply") = false ∧
      py_in "COMPLEXITY:" (py_strip "garbled reply") = false) ∧
    assess_request (.ok "garbled reply") = ("complex_modification", 5) ∧
    (assess_request (.error "timeout") = ("complex_modification", 8) ∧
      route_after_triage (triage_node (.error "timeout") initial_state) = "planner") :=
  ⟨⟨by decide, by decide⟩,
   classifier_fail_safe.2 "garbled reply" (by decide) (by decide),
   classifier_fail_safe.1 "timeout" initial_state⟩

/-- Counterexample to claim C8 at a concrete input: on an already-failed
task record (as the HTTP cancellation endpoint does on any live task),
`fail_task` runs again without checking the terminal flags: it overwrites
`failure_reason` and appends a log entry — a further mutation and state
transition after a terminal flag became true. -/
theorem terminal_not_frozen_counterexample :
    failed_once.task_failed = true ∧
    (fail_task failed_once "Task cancelled by user").failure_reason = "Task cancelled by user" ∧
    (fail_task failed_once "Task cancelled by user").failure_reason ≠ failed_once.failure_reason ∧
    (fail_task failed_once "Task cancelled by user").execution_log.length =
      failed_once.execution_log.length + 1 := by
  refine ⟨by decide, by decide, by decide, by decide⟩

/-- Claim C8 as amended: `task_complete` and `task_failed` are never both
true — vacuously, because no operation in the repository ever sets
`task_complete` (it stays false on every reachable record) — but terminal
flags do not freeze the record: `fail_task` (reached, e.g., through the
cancellation endpoint) unconditionally sets `task_failed`, overwrites
`failure_reason` and appends to the log, whatever state the record is in. -/
theorem terminal_flags_exclusive_but_not_frozen :
    (∀ st : AgentState, Reachable st →
      st.task_complete = false ∧ ¬(st.task_complete = true ∧ st.task_failed = true)) ∧
    (∀ (st : AgentState) (reason : String),
      (fail_task st reason).task_failed = true ∧
      (fail_task st reason).failure_reason = reason ∧
      (fail_task st reason).execution_log.length = st.execution_log.length + 1) := by
  constructor
  · intro st h
    have hc : st.task_complete = false := by
      induction h with
      | init fresh_id instruction code => rfl
      | triage o _ ih => exact ih
      | inquiry o _ ih => cases o <;> exact ih
      | plan fresh_id reasoning d _ ih => cases d <;> exact ih
      | develop llm env _ ih => rw [execute_atomic_step_task_complete]; exact ih
      | cancel reason _ ih => exact ih
    exact ⟨hc, fun hb => by rw [hc] at hb; cases hb.1⟩
  · intro st reason
    refine ⟨rfl, rfl, ?_⟩
    simp [fail_task, log_message]

/-- Witness for C8 (amended): the exclusion part at a freshly started task
and the non-freezing part at the concrete already-failed record. -/
theorem terminal_flags_exclusive_but_not_frozen_witness :
    ((start_task initial_state "tid-9" "inst" "code").task_complete = false ∧
      ¬((start_task initial_state "tid-9" "inst" "code").task_complete = true ∧
        (start_task initial_state "tid-9" "inst" "code").task_failed = true)) ∧
    ((fail_task failed_once "Task cancelled by user").task_failed = true ∧
      (fail_task failed_once "Task cancelled by user").failure_reason = "Task cancelled by user" ∧
      (fail_task failed_once "Task cancelled by user").execution_log.length =
        failed_once.execution_log.length + 1) :=
  ⟨terminal_flags_exclusive_but_not_frozen.1 _ (Reachable.init "tid-9" "inst" "code"),
   terminal_flags_exclusive_but_not_frozen.2 failed_once "Task cancelled by user"⟩

/-- The serialized status string parses back to the status it came from. -/
theorem status_roundtrip (s : StepStatus) : status_of_value (status_value s) = some s := by
  cases s <;> rfl

/-- Claim C9: whenever `to_dict` produces a snapshot, re-parsing that
snapshot recovers exactly the in-memory plan-step statuses, the
`task_complete`/`task_failed` flags and the `final_code` of the record. -/
theorem snapshot_roundtrip (st : AgentState) (d : StateDict) (h : to_dict st = .ok d) :
    d.plan_steps.map (fun sd => status_of_value sd.status) =
      st.plan_steps.map (fun s => some s.status) ∧
    d.task_complete = st.task_complete ∧
    d.task_failed = st.task_failed ∧
    d.final_code = st.final_code := by
  unfold to_dict at h
  cases hp : get_progress_summary st with
  | error e => rw [hp] at h; cases h
  | ok prog =>
      rw [hp] at h
      injection h with h
      subst h
      refine ⟨?_, rfl, rfl, rfl⟩
      simp [List.map_map, Function.comp, step_to_dict, status_roundtrip]

/-- Witness for C9 at the concrete failed record `rt_state` and its
snapshot `rt_dict`. -/
theorem snapshot_roundtrip_witness :
    to_dict rt_state = .ok rt_dict ∧
    (rt_dict.plan_steps.map (fun sd => status_of_value sd.status) =
        rt_state.plan_steps.map (fun s => some s.status) ∧
      rt_dict.task_complete = rt_state.task_complete ∧
      rt_dict.task_failed = rt_state.task_failed ∧
      rt_dict.final_code = rt_state.final_code) :=
  ⟨by rfl, snapshot_roundtrip rt_state rt_dict (by rfl)⟩

end AgentCode
